import Mathlib

/-!
Shallow embedding of the hyphenbox client SDK's algorithmic core:

* element resolution (`src/elementUtils.ts`: `findElementFromInteraction`,
  `querySelectorAllWithText`), and
* position stabilization (`src/uiComponents.ts`:
  `positionHighlightOnElement`'s `updatePosition` polling loop and the
  overlay-wrapper lifecycle).

DOM elements are modelled as records carrying the fields the code reads
(text content, `value` attribute, whether the element matches the fixed
interactive scope selector), a document as the list of its elements in
document order, and CSS selectors as abstract queries that either fail
(malformed selector, which `document.querySelector` reports by throwing)
or select the first element satisfying a predicate.  JavaScript string
operations (`trim`, `toLowerCase`, `includes`) are modelled over ASCII.
-/

/-! ## String helpers (JS `trim`, `toLowerCase`, `includes`) -/

/-- ASCII whitespace, the cases relevant to JS `String.prototype.trim`. -/
def isWsChar (c : Char) : Bool :=
  c == ' ' || c == '\t' || c == '\n' || c == '\r'

/-- JS `String.prototype.trim`: strip whitespace from both ends. -/
def strTrim (s : String) : String :=
  String.mk (((s.toList.dropWhile isWsChar).reverse.dropWhile isWsChar).reverse)

/-- JS `String.prototype.toLowerCase`, ASCII case folding. -/
def strLower (s : String) : String :=
  String.mk (s.toList.map Char.toLower)

/-- Does `needle` occur at the start of `hay`? -/
def startsWithChars : List Char → List Char → Bool
  | [], _ => true
  | _ :: _, [] => false
  | c :: cs, d :: ds => c == d && startsWithChars cs ds

/-- Does `needle` occur contiguously anywhere in `hay`? -/
def hasSubChars (needle : List Char) : List Char → Bool
  | [] => needle.isEmpty
  | d :: rest => startsWithChars needle (d :: rest) || hasSubChars needle rest

/-- JS `a.includes(b)`. -/
def strIncludes (a b : String) : Bool :=
  hasSubChars b.toList a.toList

/-! ## DOM model -/

/-- A DOM element, carrying exactly the fields the resolution code reads.
`interactive` records whether the element matches the fixed scope selector
`'a, button, [role="button"], .btn'` used by strategies 2 of
`findElementFromInteraction`. -/
structure Elem where
  eid : Nat
  interactive : Bool
  textContent : String
  valueAttr : Option String
  deriving DecidableEq

/-- A document: its elements in document order.  `querySelectorAll` over a
scope returns the document-order sublist of elements matching the scope. -/
abbrev Doc := List Elem

/-- A CSS selector, abstractly: either malformed (`document.querySelector`
throws a `SyntaxError` on it) or a query selecting the first element
satisfying a predicate. -/
inductive Selector where
  | invalid
  | byPred (p : Elem → Bool)

/-- `document.querySelector(sel)`: throws on a malformed selector, else
returns the first match or null. -/
def querySelectorE (doc : Doc) : Selector → Except Unit (Option Elem)
  | .invalid => .error ()
  | .byPred p => .ok (doc.find? p)

/-- The scope `'a, button, [role="button"], .btn'`. -/
def interactiveScope (e : Elem) : Bool := e.interactive

/-- The scope `'*'`. -/
def anyScope (_ : Elem) : Bool := true

/-! ## `ElementUtils.querySelectorAllWithText` (src/elementUtils.ts:178-202) -/

/-- The text filter applied by `querySelectorAllWithText` to each candidate:
trimmed `textContent` (or trimmed `value` attribute) equal to the trimmed
search text in exact mode, or containing it case-insensitively otherwise. -/
def textMatch (text : String) (exact : Bool) (e : Elem) : Bool :=
  let elementText := strTrim e.textContent
  let searchText := strTrim text
  let valueText := (e.valueAttr.map strTrim).getD ""
  if exact then
    elementText == searchText || valueText == searchText
  else
    strIncludes (strLower elementText) (strLower searchText) ||
    strIncludes (strLower valueText) (strLower searchText)

/-- `ElementUtils.querySelectorAllWithText(selector, text, exact)`.  The
scope selectors passed by the code (`'a, button, [role="button"], .btn'`
and `'*'`) are well-formed, so the internal try/catch (which returns `[]`
on a malformed scope selector) never fires and is not modelled. -/
def querySelectorAllWithText (doc : Doc) (scope : Elem → Bool)
    (text : String) (exact : Bool) : List Elem :=
  let elements := doc.filter scope
  elements.filter (textMatch text exact)

/-! ## `ElementUtils.findElementFromInteraction` (src/elementUtils.ts:2-68) -/

/-- An interaction descriptor.  `selector := none` also covers the empty
selector string, which is falsy in JS; likewise `textTruthy` below models
JS truthiness of the `text` field. -/
structure Interaction where
  selector : Option Selector
  text : Option String

/-- JS truthiness of an optional string field: absent or empty is falsy. -/
def textTruthy : Option String → Bool
  | none => false
  | some s => s != ""

/-- Strategy 1 of `findElementFromInteraction`: query by selector inside a
try/catch, a malformed selector being caught and ignored. -/
def selectorResolve (doc : Doc) : Option Selector → Option Elem
  | some sel =>
    match querySelectorE doc sel with
    | .ok r => r
    | .error _ => none
  | none => none

/-- `ElementUtils.findElementFromInteraction(interaction, requireExactMatch)`:
strategy 1 (selector), strategy 2 (exact text over the interactive scope,
falling back to substring when exactness is not required), strategy 3
(substring over all elements when still unresolved and exactness is not
required). -/
def findElementFromInteraction (doc : Doc) (interaction : Option Interaction)
    (requireExactMatch : Bool := true) : Option Elem :=
  match interaction with
  | none => none
  | some i =>
    -- Strategy 1: try by selector if provided
    let element : Option Elem := selectorResolve doc i.selector
    -- Strategy 2: try by text content
    let element : Option Elem :=
      if (element.isNone || requireExactMatch) && textTruthy i.text then
        let textContent := strTrim (i.text.getD "")
        let textElements := querySelectorAllWithText doc interactiveScope textContent true
        if textElements.length == 1 then
          textElements.head?
        else if textElements.length > 1 then
          -- multiple matches: just take the first one
          textElements.head?
        else if !requireExactMatch then
          let looseMatches := querySelectorAllWithText doc interactiveScope textContent false
          if looseMatches.length > 0 then looseMatches.head? else element
        else element
      else element
    -- Strategy 3: broader search when still not found and exactness not required
    let element : Option Elem :=
      if element.isNone && !requireExactMatch && textTruthy i.text then
        let elements := querySelectorAllWithText doc anyScope (i.text.getD "") false
        if elements.length > 0 then elements.head? else element
      else element
    element


/-! ## Position stabilization (src/uiComponents.ts:766-1040,
`UIComponents.positionHighlightOnElement`)

The polling loop `updatePosition` is embedded as a step function on an
explicit state; one application models one invocation of the closure
(either the initial call or one interval tick).  Each invocation observes
a `Sample` of the live environment: the target's viewport rectangle, its
attachment to the document, the rectangles of its ancestor chain, and the
scroll offsets at that instant.  Rectangle coordinates are integers. -/

structure Rect where
  top : Int
  left : Int
  width : Int
  height : Int
  deriving DecidableEq

/-- The value `lastRect` is initialized with (line 849). -/
def Rect.zero : Rect := ⟨0, 0, 0, 0⟩

/-- Geometry written to the wrapper: the `translate(x, y)` transform plus
width/height (viewport rectangle shifted by the scroll offsets). -/
structure WrapperGeom where
  x : Int
  y : Int
  w : Int
  h : Int
  deriving DecidableEq

def geomOf (r : Rect) (scrollX scrollY : Int) : WrapperGeom :=
  ⟨r.left + scrollX, r.top + scrollY, r.width, r.height⟩

/-- One observation of the environment by `updatePosition`:
`rect` is `element.getBoundingClientRect()`, `isInDocument` is
`document.body.contains(element)`, `hasParent` is whether
`element.parentElement` is non-null, and `ancestors` lists the
`getBoundingClientRect()` of each successive `parentElement`, nearest
first, stopping before `document.body`. -/
structure Sample where
  rect : Rect
  isInDocument : Bool
  hasParent : Bool
  ancestors : List Rect
  scrollX : Int
  scrollY : Int

/-- The timing parameters chosen at lines 853-855, together with the
context flag the loop body consults again (line 925). -/
structure StabConfig where
  maxAttempts : Nat
  checkInterval : Nat
  initialDelay : Nat
  isInExpandedNav : Bool
  deriving DecidableEq

/-- Lines 853-855:
`MAX_ATTEMPTS = isInExpandedNav ? 60 : (isInModal ? 50 : 30)`,
`CHECK_INTERVAL = isInExpandedNav ? 80 : (isInModal ? 100 : 50)`,
`INITIAL_DELAY = isInExpandedNav ? 400 : (isInModal ? 300 : 0)`. -/
def stabilizationConfig (isInModal isInExpandedNav : Bool) : StabConfig :=
  { maxAttempts := if isInExpandedNav then 60 else if isInModal then 50 else 30
    checkInterval := if isInExpandedNav then 80 else if isInModal then 100 else 50
    initialDelay := if isInExpandedNav then 400 else if isInModal then 300 else 0
    isInExpandedNav := isInExpandedNav }

def standardConfig : StabConfig := stabilizationConfig false false

/-- The mutable state of one stabilization run: the closure variables
`lastRect`, `stabilityCounter`, `attemptCounter`, and the wrapper's
written geometry (`transform`/`width`/`height`; `none` = never written),
opacity (`visible`), and whether `wrapper['positionInterval']` is still
set (`intervalActive`). -/
structure StabState where
  lastRect : Rect
  stabilityCounter : Nat
  attemptCounter : Nat
  wrapperGeom : Option WrapperGeom
  visible : Bool
  intervalActive : Bool
  deriving DecidableEq

/-- State when the first `updatePosition` call runs: counters zero,
wrapper hidden and unpositioned, the repeating interval just installed. -/
def initState : StabState :=
  { lastRect := Rect.zero, stabilityCounter := 0, attemptCounter := 0
    wrapperGeom := none, visible := false, intervalActive := true }

/-- Lines 896-900: a change greater than 1px in any of
top/left/width/height. -/
def positionChanged (rect lastRect : Rect) : Bool :=
  (rect.top - lastRect.top).natAbs > 1 ||
  (rect.left - lastRect.left).natAbs > 1 ||
  (rect.width - lastRect.width).natAbs > 1 ||
  (rect.height - lastRect.height).natAbs > 1

/-- Lines 946-985: walk up the `parentElement` chain (stopping at
`document.body`, bounded to 10 ancestors) for the first ancestor whose
rectangle has non-zero width and height. -/
def findVisibleParent (ancestors : List Rect) : Option Rect :=
  (ancestors.take 10).find? (fun r => 0 < r.width && 0 < r.height)

/-- One invocation of `updatePosition` (lines 860-1021).  The comparison
`attemptCounter < MAX_ATTEMPTS / 2` (line 925) is JS real division, so it
is rendered as `2 * attemptCounter < maxAttempts`. -/
def updatePosition (cfg : StabConfig) (s : StabState) (o : Sample) : StabState :=
  let attemptCounter := s.attemptCounter + 1
  let rect := o.rect
  let hasValidSize : Bool := 0 < rect.width && 0 < rect.height
  let isInDocument := o.isInDocument
  let s₁ : StabState :=
    if hasValidSize && isInDocument then
      -- write the wrapper transform and size from the fresh sample
      let s' := { s with attemptCounter := attemptCounter
                         wrapperGeom := some (geomOf rect o.scrollX o.scrollY) }
      if positionChanged rect s.lastRect then
        -- position still changing: reset counter, update lastRect
        { s' with stabilityCounter := 0, lastRect := rect }
      else
        let stab := s.stabilityCounter + 1
        let s'' := { s' with stabilityCounter := stab }
        if stab ≥ 3 then
          let s''' := { s'' with visible := true }
          if stab ≥ 5 && s.intervalActive then
            { s''' with intervalActive := false }
          else s'''
        else s''
    else if cfg.isInExpandedNav && 2 * attemptCounter < cfg.maxAttempts then
      -- expanding-nav grace period: keep waiting silently
      { s with attemptCounter := attemptCounter }
    else
      -- element invalid: try to position on the nearest visible parent
      if isInDocument && !hasValidSize && o.hasParent then
        match findVisibleParent o.ancestors with
        | some pr =>
          { s with attemptCounter := attemptCounter
                   wrapperGeom := some (geomOf pr o.scrollX o.scrollY)
                   visible := true }
        | none => { s with attemptCounter := attemptCounter }
      else { s with attemptCounter := attemptCounter }
  -- lines 993-1020: stop after max attempts, forcing the highlight visible
  if s₁.attemptCounter ≥ cfg.maxAttempts then
    if s₁.intervalActive then
      { s₁ with intervalActive := false, visible := true }
    else s₁
  else s₁

/-- A sample of an attached element whose rectangle is constant. -/
def constSample (r : Rect) : Sample :=
  { rect := r, isInDocument := true, hasParent := true, ancestors := []
    scrollX := 0, scrollY := 0 }

/-- The state after `n` samples of a constant-rectangle attached element,
starting from the initial state. -/
def runConst (cfg : StabConfig) (r : Rect) : Nat → StabState
  | 0 => initState
  | n + 1 => updatePosition cfg (runConst cfg r n) (constSample r)


/-! ## Overlay wrapper lifecycle (src/uiComponents.ts:815-846, and the
analogous cursor-wrapper prologue at lines 464-468)

`positionHighlightOnElement` begins by looking up the existing
`.hyphen-highlight-wrapper` via `document.querySelector` and removing that
node from the document (`removeChild`), then creates and appends a fresh
wrapper.  A removed wrapper's JS object survives with whatever observers
and repeating timers were attached to it; removal from the document does
not disconnect or clear them (only `cleanupAllUI`, lines 1043-1084, does).
The model keeps every wrapper ever created, with an `inDoc` flag. -/

structure OverlayWrapper where
  wid : Nat
  inDoc : Bool
  intervalActive : Bool
  observerActive : Bool
  deriving DecidableEq

/-- `document.querySelector('.hyphen-highlight-wrapper')` followed by
`removeChild`: the first wrapper still in the document, if any, is
detached; its timers and observers are untouched. -/
def removeExistingWrapper : List OverlayWrapper → List OverlayWrapper
  | [] => []
  | w :: ws =>
    if w.inDoc then { w with inDoc := false } :: ws
    else w :: removeExistingWrapper ws

/-- The freshly created wrapper appended to `document.body`: in the
document, no observers yet, interval installed only later inside the
`setTimeout` callback. -/
def newWrapper (n : Nat) : OverlayWrapper :=
  { wid := n, inDoc := true, intervalActive := false, observerActive := false }

/-- The prologue of `positionHighlightOnElement` acting on the population
of wrapper nodes: detach the existing wrapper, append a fresh one. -/
def highlightPrologue (ws : List OverlayWrapper) (n : Nat) : List OverlayWrapper :=
  removeExistingWrapper ws ++ [newWrapper n]


/-! ## Spec-side comparator for the TextMatcher primitive -/

/-- The TextMatcher's per-element criterion written from the spec's words
(spec §4.1: "matching against trimmed `textContent` or a `value`-like
attribute, case-sensitive for exact mode and case-insensitive for
substring mode"), to be compared against the code's `textMatch`. -/
def matchByText_spec (e : Elem) (t : String) (exact : Bool) : Bool :=
  if exact then
    strTrim e.textContent == strTrim t ||
    (e.valueAttr.map strTrim).getD "" == strTrim t
  else
    strIncludes (strLower (strTrim e.textContent)) (strLower (strTrim t)) ||
    strIncludes (strLower ((e.valueAttr.map strTrim).getD "")) (strLower (strTrim t))

/-! ## Theorems -/

/-- Claim C6 (confirmed): the stabilization context determines exactly the
three timing parameters of the spec's table — Standard 30/50ms/0ms,
InModal 50/100ms/300ms, InExpandingNav 60/80ms/400ms — and the
expanding-nav classification takes precedence when an element is both in a
modal and in an expanded navigation panel. -/
theorem timing_parameters_table :
    stabilizationConfig false false =
      { maxAttempts := 30, checkInterval := 50, initialDelay := 0, isInExpandedNav := false } ∧
    stabilizationConfig true false =
      { maxAttempts := 50, checkInterval := 100, initialDelay := 300, isInExpandedNav := false } ∧
    stabilizationConfig false true =
      { maxAttempts := 60, checkInterval := 80, initialDelay := 400, isInExpandedNav := true } ∧
    stabilizationConfig true true = stabilizationConfig false true := by
  decide

/-- Claim C5 (confirmed): on every valid-geometry sample, a change greater
than 1px in any of top/left/width/height resets `stabilityCounter` to 0
and overwrites `lastRect` with the new rectangle; otherwise
`stabilityCounter` is incremented and `lastRect` is unchanged.  In
particular `stabilityCounter` never increases on a sample exceeding the
threshold. -/
theorem stability_counter_step (cfg : StabConfig) (s : StabState) (o : Sample)
    (hw : 0 < o.rect.width) (hh : 0 < o.rect.height) (hd : o.isInDocument = true) :
    (positionChanged o.rect s.lastRect = true →
      (updatePosition cfg s o).stabilityCounter = 0 ∧
      (updatePosition cfg s o).lastRect = o.rect) ∧
    (positionChanged o.rect s.lastRect = false →
      (updatePosition cfg s o).stabilityCounter = s.stabilityCounter + 1 ∧
      (updatePosition cfg s o).lastRect = s.lastRect) := by
  refine ⟨fun hc => ?_, fun hc => ?_⟩ <;>
    (simp only [updatePosition, hd, hw, hh, hc, decide_True, Bool.true_and, Bool.and_true,
      Bool.and_self, if_true, ite_true, Bool.false_eq_true, if_false, ite_false]
     (repeat' split) <;> simp)

/-- Witness for C5: a first sample at rectangle (10,10,5,5) differs from
the zero-initialized `lastRect` by more than 1px, so the counter resets
and `lastRect` is overwritten. -/
theorem stability_counter_step_witness :
    (updatePosition standardConfig initState
      { rect := ⟨10, 10, 5, 5⟩, isInDocument := true, hasParent := true,
        ancestors := [], scrollX := 0, scrollY := 0 }).stabilityCounter = 0 ∧
    (updatePosition standardConfig initState
      { rect := ⟨10, 10, 5, 5⟩, isInDocument := true, hasParent := true,
        ancestors := [], scrollX := 0, scrollY := 0 }).lastRect = ⟨10, 10, 5, 5⟩ :=
  (stability_counter_step standardConfig initState
    { rect := ⟨10, 10, 5, 5⟩, isInDocument := true, hasParent := true,
      ancestors := [], scrollX := 0, scrollY := 0 }
    (by decide) (by decide) rfl).1 (by decide)

/-- Claim C4 (confirmed): when the attempt counter reaches `maxAttempts`
on a sample while the polling task is still installed, the task is
cancelled and the overlay is forced visible; moreover when the sample
found the element detached, the wrapper keeps its last-known geometry.
This holds for every observation, so the overlay never stays invisible
past the attempt budget. -/
theorem forced_visible_at_max_attempts (cfg : StabConfig) (s : StabState) (o : Sample)
    (hi : s.intervalActive = true) (ha : s.attemptCounter + 1 ≥ cfg.maxAttempts) :
    (updatePosition cfg s o).intervalActive = false ∧
    (updatePosition cfg s o).visible = true ∧
    (o.isInDocument = false → (updatePosition cfg s o).wrapperGeom = s.wrapperGeom) := by
  simp only [updatePosition]
  (repeat' split) <;> simp_all

/-- Witness for C4: the Standard budget of 30 attempts exhausted on a
detached element forces the wrapper visible with no geometry ever
written. -/
theorem forced_visible_at_max_attempts_witness :
    (updatePosition standardConfig { initState with attemptCounter := 29 }
      { rect := Rect.zero, isInDocument := false, hasParent := false,
        ancestors := [], scrollX := 0, scrollY := 0 }).intervalActive = false ∧
    (updatePosition standardConfig { initState with attemptCounter := 29 }
      { rect := Rect.zero, isInDocument := false, hasParent := false,
        ancestors := [], scrollX := 0, scrollY := 0 }).visible = true ∧
    (false = false →
      (updatePosition standardConfig { initState with attemptCounter := 29 }
        { rect := Rect.zero, isInDocument := false, hasParent := false,
          ancestors := [], scrollX := 0, scrollY := 0 }).wrapperGeom = none) :=
  forced_visible_at_max_attempts standardConfig { initState with attemptCounter := 29 }
    { rect := Rect.zero, isInDocument := false, hasParent := false,
      ancestors := [], scrollX := 0, scrollY := 0 }
    rfl (by decide)

/-- Claim C1 counterexample: a target whose rectangle is the constant
(100,100,50,40) from the first sample onward is not made visible after 3
samples (the first sample compares against the zero-initialized
`lastRect` and resets the counter); visibility arrives at sample 4 and
the polling task is still installed after sample 5, being cancelled only
at sample 6. -/
theorem stabilized_on_third_sample_refuted :
    (runConst standardConfig ⟨100, 100, 50, 40⟩ 3).visible = false ∧
    (runConst standardConfig ⟨100, 100, 50, 40⟩ 4).visible = true ∧
    (runConst standardConfig ⟨100, 100, 50, 40⟩ 5).intervalActive = true ∧
    (runConst standardConfig ⟨100, 100, 50, 40⟩ 6).intervalActive = false := by
  decide

/-- Claim C1 as amended: for a constant-rectangle element whose rectangle
differs by more than 1px in some dimension from the zero rectangle that
`lastRect` is initialized to, the first sample resets the counter, so the
overlay wrapper is made visible exactly at the 4th sample — when
`stabilityCounter` reaches 3, i.e. after 3 consecutive identical samples —
and the polling task is cancelled at the 6th sample (the 5th consecutive
identical one), when `stabilityCounter` reaches 5. -/
theorem stabilization_after_four_samples (R : Rect)
    (hw : 0 < R.width) (hh : 0 < R.height)
    (hc : positionChanged R Rect.zero = true) :
    (runConst standardConfig R 3).visible = false ∧
    (runConst standardConfig R 4).visible = true ∧
    (runConst standardConfig R 4).stabilityCounter = 3 ∧
    (runConst standardConfig R 5).intervalActive = true ∧
    (runConst standardConfig R 6).intervalActive = false ∧
    (runConst standardConfig R 6).stabilityCounter = 5 := by
  have pcs : positionChanged R R = false := by simp [positionChanged]
  have e1 : runConst standardConfig R 1 =
      { lastRect := R, stabilityCounter := 0, attemptCounter := 1,
        wrapperGeom := some (geomOf R 0 0), visible := false, intervalActive := true } := by
    simp [runConst, initState, updatePosition, constSample, hw, hh, hc,
      standardConfig, stabilizationConfig]
  have e2 : runConst standardConfig R 2 =
      { lastRect := R, stabilityCounter := 1, attemptCounter := 2,
        wrapperGeom := some (geomOf R 0 0), visible := false, intervalActive := true } := by
    show updatePosition standardConfig (runConst standardConfig R 1) (constSample R) = _
    rw [e1]
    simp [updatePosition, constSample, hw, hh, pcs, standardConfig, stabilizationConfig]
  have e3 : runConst standardConfig R 3 =
      { lastRect := R, stabilityCounter := 2, attemptCounter := 3,
        wrapperGeom := some (geomOf R 0 0), visible := false, intervalActive := true } := by
    show updatePosition standardConfig (runConst standardConfig R 2) (constSample R) = _
    rw [e2]
    simp [updatePosition, constSample, hw, hh, pcs, standardConfig, stabilizationConfig]
  have e4 : runConst standardConfig R 4 =
      { lastRect := R, stabilityCounter := 3, attemptCounter := 4,
        wrapperGeom := some (geomOf R 0 0), visible := true, intervalActive := true } := by
    show updatePosition standardConfig (runConst standardConfig R 3) (constSample R) = _
    rw [e3]
    simp [updatePosition, constSample, hw, hh, pcs, standardConfig, stabilizationConfig]
  have e5 : runConst standardConfig R 5 =
      { lastRect := R, stabilityCounter := 4, attemptCounter := 5,
        wrapperGeom := some (geomOf R 0 0), visible := true, intervalActive := true } := by
    show updatePosition standardConfig (runConst standardConfig R 4) (constSample R) = _
    rw [e4]
    simp [updatePosition, constSample, hw, hh, pcs, standardConfig, stabilizationConfig]
  have e6 : runConst standardConfig R 6 =
      { lastRect := R, stabilityCounter := 5, attemptCounter := 6,
        wrapperGeom := some (geomOf R 0 0), visible := true, intervalActive := false } := by
    show updatePosition standardConfig (runConst standardConfig R 5) (constSample R) = _
    rw [e5]
    simp [updatePosition, constSample, hw, hh, pcs, standardConfig, stabilizationConfig]
  rw [e3, e4, e5, e6]
  exact ⟨rfl, rfl, rfl, rfl, rfl, rfl⟩

/-- Witness for the amended C1 at the constant rectangle (100,100,50,40). -/
theorem stabilization_after_four_samples_witness :
    (runConst standardConfig ⟨100, 100, 50, 40⟩ 4).visible = true ∧
    (runConst standardConfig ⟨100, 100, 50, 40⟩ 4).stabilityCounter = 3 ∧
    (runConst standardConfig ⟨100, 100, 50, 40⟩ 6).stabilityCounter = 5 :=
  have h := stabilization_after_four_samples ⟨100, 100, 50, 40⟩
    (by decide) (by decide) (by decide)
  ⟨h.2.1, h.2.2.1, h.2.2.2.2.2⟩

/-- Claim C2 counterexample: a sample that finds the target detached from
the document (zero rectangle, a parent chain whose first ancestor has
non-zero area 100x50) does not take the ancestor-fallback path: the
fallback is guarded by `isInDocument`, so the overlay stays unpositioned
and invisible even though `findVisibleParent` would succeed. -/
theorem detached_target_fallback_refuted :
    findVisibleParent [(⟨5, 5, 100, 50⟩ : Rect)] = some ⟨5, 5, 100, 50⟩ ∧
    (updatePosition standardConfig initState
      { rect := Rect.zero, isInDocument := false, hasParent := true,
        ancestors := [⟨5, 5, 100, 50⟩], scrollX := 0, scrollY := 0 }).wrapperGeom = none ∧
    (updatePosition standardConfig initState
      { rect := Rect.zero, isInDocument := false, hasParent := true,
        ancestors := [⟨5, 5, 100, 50⟩], scrollX := 0, scrollY := 0 }).visible = false := by
  decide

/-- Claim C2 as amended: when a sample finds the target still attached to
the document but with zero width or height (and not inside the
expanding-nav grace period of fewer than half of `maxAttempts`), the
stabilizer walks the parent chain — bounded to 10 hops — and on finding an
ancestor with non-zero area positions the overlay on that ancestor's
rectangle immediately and makes it visible, while the polling task,
stability counter and `lastRect` are left unchanged (polling of the
original element continues).  A detached target, by contrast, takes no
fallback at all: the sample leaves the overlay untouched (never fatal;
the loop simply continues until the attempt budget forces visibility). -/
theorem ancestor_fallback_when_attached (cfg : StabConfig) (s : StabState) (o : Sample)
    (pr : Rect)
    (hd : o.isInDocument = true)
    (hz : ¬(0 < o.rect.width ∧ 0 < o.rect.height))
    (hgrace : cfg.isInExpandedNav = false ∨ cfg.maxAttempts ≤ 2 * (s.attemptCounter + 1))
    (hp : o.hasParent = true)
    (hf : findVisibleParent o.ancestors = some pr)
    (ha : s.attemptCounter + 1 < cfg.maxAttempts) :
    updatePosition cfg s o =
      { s with attemptCounter := s.attemptCounter + 1
               wrapperGeom := some (geomOf pr o.scrollX o.scrollY)
               visible := true } := by
  have hv : (decide (0 < o.rect.width) && decide (0 < o.rect.height)) = false := by
    rcases Decidable.not_and_iff_or_not.mp hz with h | h <;> simp [h]
  have hg : (cfg.isInExpandedNav && decide (2 * (s.attemptCounter + 1) < cfg.maxAttempts))
      = false := by
    rcases hgrace with h | h
    · simp [h]
    · simp [Nat.not_lt.mpr h]
  have hna : ¬(s.attemptCounter + 1 ≥ cfg.maxAttempts) := Nat.not_le.mpr ha
  simp only [updatePosition, hv, hd, hp, hf, hg, Bool.false_and, Bool.and_true,
    Bool.not_false, Bool.true_and, Bool.and_false, if_false, ite_false, if_true, ite_true,
    Bool.false_eq_true]
  simp [hna]

/-- Witness for the amended C2: an attached zero-size target whose direct
parent measures 100x50 gets the overlay positioned on the parent's
rectangle on the very first invalid-size sample. -/
theorem ancestor_fallback_when_attached_witness :
    updatePosition standardConfig initState
      { rect := Rect.zero, isInDocument := true, hasParent := true,
        ancestors := [⟨5, 5, 100, 50⟩], scrollX := 0, scrollY := 0 } =
      { initState with attemptCounter := 1
                       wrapperGeom := some (geomOf ⟨5, 5, 100, 50⟩ 0 0)
                       visible := true } :=
  ancestor_fallback_when_attached standardConfig initState
    { rect := Rect.zero, isInDocument := true, hasParent := true,
      ancestors := [⟨5, 5, 100, 50⟩], scrollX := 0, scrollY := 0 }
    ⟨5, 5, 100, 50⟩ rfl (by decide) (Or.inl rfl) rfl (by decide) (by decide)

/-- Claim C3 counterexample: the text "Submit" matches two interactive
elements exactly, whose first in document order is element 1; but for a
descriptor that also carries a selector resolving to element 0 and with
`requireExactMatch = false`, resolution returns element 0 — the text
tie-break never runs, so the claim does not hold for every descriptor. -/
theorem text_tiebreak_universal_refuted :
    (querySelectorAllWithText
      [⟨0, false, "x", none⟩, ⟨1, true, "Submit", none⟩, ⟨2, true, "Submit", none⟩]
      interactiveScope (strTrim "Submit") true).length > 1 ∧
    (querySelectorAllWithText
      [⟨0, false, "x", none⟩, ⟨1, true, "Submit", none⟩, ⟨2, true, "Submit", none⟩]
      interactiveScope (strTrim "Submit") true).head? = some ⟨1, true, "Submit", none⟩ ∧
    findElementFromInteraction
      [⟨0, false, "x", none⟩, ⟨1, true, "Submit", none⟩, ⟨2, true, "Submit", none⟩]
      (some ⟨some (.byPred (fun e => e.eid == 0)), some "Submit"⟩) false
      = some ⟨0, false, "x", none⟩ := by
  decide

/-- Claim C3 as amended: for a descriptor whose non-empty text has more
than one exact match in the interactive candidate scope, and such that
the selector strategy produced no element or exact matching is required
(the default), resolution returns the head of the exact-match list — the
first such element in document order.  Being a pure function of the
document, repeated calls against an unchanged document return the same
element, and no visibility scoring takes place. -/
theorem first_in_document_order_tiebreak (doc : Doc) (i : Interaction) (t : String)
    (r : Bool)
    (ht : i.text = some t) (htt : t ≠ "")
    (hsel : selectorResolve doc i.selector = none ∨ r = true)
    (hmany : (querySelectorAllWithText doc interactiveScope (strTrim t) true).length > 1) :
    findElementFromInteraction doc (some i) r =
      (querySelectorAllWithText doc interactiveScope (strTrim t) true).head? := by
  set L := querySelectorAllWithText doc interactiveScope (strTrim t) true with hL
  obtain ⟨x, xs, hcons⟩ : ∃ x xs, L = x :: xs := by
    cases hLc : L with
    | nil => rw [hLc] at hmany; simp at hmany
    | cons x xs => exact ⟨x, xs, rfl⟩
  have htt' : textTruthy (some t) = true := by simp [textTruthy, htt]
  have h1 : (L.length == 1) = false := by
    simp only [Nat.beq_eq_true_eq, Bool.eq_false_iff, ne_eq]
    omega
  have h2 : decide (L.length > 1) = true := decide_eq_true hmany
  have h3 : L.head? = some x := by rw [hcons]; rfl
  have h4 : (L.head?).isNone = false := by rw [h3]; rfl
  rcases hsel with h | h <;>
    simp [findElementFromInteraction, ht, htt', h, ← hL, h1, h2, h3, h4, hmany]

/-- Witness for the amended C3: two Submit buttons, a text-only exact
descriptor; resolution returns the first button. -/
theorem first_in_document_order_tiebreak_witness :
    findElementFromInteraction
      [⟨1, true, "Submit", none⟩, ⟨2, true, "Submit", none⟩]
      (some ⟨none, some "Submit"⟩) true =
      (querySelectorAllWithText
        [⟨1, true, "Submit", none⟩, ⟨2, true, "Submit", none⟩]
        interactiveScope (strTrim "Submit") true).head? :=
  first_in_document_order_tiebreak
    [⟨1, true, "Submit", none⟩, ⟨2, true, "Submit", none⟩]
    ⟨none, some "Submit"⟩ "Submit" true rfl (by decide) (Or.inl rfl) (by decide)

/-- Claim C7 (confirmed): element resolution always returns an element or
none — in the embedding every internal failure point is absorbed locally,
the only exception source being `document.querySelector` on a malformed
selector, which is caught at the query site — and a malformed selector
behaves exactly like an absent selector: strategy 1 is disqualified while
the text-based strategies proceed unchanged. -/
theorem resolution_total_and_invalid_selector_soft (doc : Doc) (t : Option String)
    (r : Bool) :
    (∀ i : Option Interaction, findElementFromInteraction doc i r = none ∨
      ∃ e, findElementFromInteraction doc i r = some e) ∧
    findElementFromInteraction doc (some ⟨some .invalid, t⟩) r =
      findElementFromInteraction doc (some ⟨none, t⟩) r := by
  constructor
  · intro i
    cases h : findElementFromInteraction doc i r with
    | none => exact Or.inl rfl
    | some e => exact Or.inr ⟨e, rfl⟩
  · rfl

/-- Claim C9 (confirmed): `querySelectorAllWithText` returns exactly the
document-order filter of the scope's elements through the spec's
criterion — trimmed `textContent` or trimmed `value` equal to the trimmed
search text (case-sensitive) in exact mode, case-insensitive containment
otherwise.  Equality with `List.filter` over the document fixes both the
membership condition and the document ordering. -/
theorem querySelectorAllWithText_matches_spec (doc : Doc) (scope : Elem → Bool)
    (t : String) (exact : Bool) :
    querySelectorAllWithText doc scope t exact =
      doc.filter (fun e => scope e && matchByText_spec e t exact) := by
  have hpt : ∀ e, matchByText_spec e t exact = textMatch t exact e := fun e => rfl
  unfold querySelectorAllWithText
  rw [List.filter_filter]
  exact List.filter_congr (fun e _ => by rw [hpt, Bool.and_comm])

/-- Claim C10 (confirmed): a null/undefined descriptor resolves to none
for every document and flag (so no document query can influence the
result), and when the selector strategy has resolved an element, an exact
text search with zero matches leaves that element in place for either
value of `requireExactMatch`. -/
theorem null_interaction_and_selector_kept (doc : Doc) (i : Interaction) (r : Bool)
    (x : Elem)
    (hsel : selectorResolve doc i.selector = some x)
    (hexact : ∀ t, i.text = some t →
      querySelectorAllWithText doc interactiveScope (strTrim t) true = []) :
    findElementFromInteraction doc (some i) r = some x ∧
    ∀ (d : Doc) (r' : Bool), findElementFromInteraction d none r' = none := by
  constructor
  · cases hti : i.text with
    | none => simp [findElementFromInteraction, hsel, hti, textTruthy]
    | some t =>
      by_cases hte : t = ""
      · simp [findElementFromInteraction, hsel, hti, textTruthy, hte]
      · have hE := hexact t hti
        cases r <;> simp [findElementFromInteraction, hsel, hti, textTruthy, hte, hE]
  · intro d r'; rfl

/-- Witness for C10: a selector resolving to the sole element, a text
with no exact match; the selector's element is kept. -/
theorem null_interaction_and_selector_kept_witness :
    findElementFromInteraction [⟨0, false, "x", none⟩]
      (some ⟨some (.byPred (fun e => e.eid == 0)), some "zzz"⟩) true
      = some ⟨0, false, "x", none⟩ ∧
    ∀ (d : Doc) (r' : Bool), findElementFromInteraction d none r' = none :=
  null_interaction_and_selector_kept [⟨0, false, "x", none⟩]
    ⟨some (.byPred (fun e => e.eid == 0)), some "zzz"⟩ true ⟨0, false, "x", none⟩
    (by decide)
    (fun t ht => by
      rw [(Option.some.inj ht).symm] at *
      decide)

/-- If at most one wrapper is in the document, the prologue's removal
step detaches every previously attached wrapper. -/
theorem removeExistingWrapper_all_detached : ∀ ws : List OverlayWrapper,
    ws.countP (fun w => w.inDoc) ≤ 1 →
    ∀ w ∈ removeExistingWrapper ws, w.inDoc = false := by
  intro ws
  induction ws with
  | nil => intro _ w hw; simp [removeExistingWrapper] at hw
  | cons w ws ih =>
    intro h1 w' hw'
    by_cases hwd : w.inDoc
    · simp only [removeExistingWrapper, if_pos hwd] at hw'
      rcases List.mem_cons.mp hw' with h | h
      · subst h; rfl
      · have hz : ws.countP (fun w => w.inDoc) = 0 := by
          simp [List.countP_cons, hwd] at h1 ⊢
          exact h1
        have hall := List.countP_eq_zero.mp hz
        simpa using hall w' h
    · simp only [removeExistingWrapper, if_neg hwd] at hw'
      rcases List.mem_cons.mp hw' with h | h
      · subst h; simpa using hwd
      · refine ih ?_ w' h
        simp [List.countP_cons, hwd] at h1 ⊢
        omega

/-- The removal step touches only the `inDoc` flag: every wrapper keeps
its identity, its repeating timer and its observer. -/
theorem removeExistingWrapper_keeps_resources : ∀ ws : List OverlayWrapper,
    (removeExistingWrapper ws).map (fun w => (w.wid, w.intervalActive, w.observerActive)) =
      ws.map (fun w => (w.wid, w.intervalActive, w.observerActive)) := by
  intro ws
  induction ws with
  | nil => rfl
  | cons w ws ih =>
    by_cases hwd : w.inDoc <;>
      simp [removeExistingWrapper, hwd, ih]

/-- Claim C8 counterexample: starting positioning while a previous
wrapper owns an active repeating timer and an active observer leaves both
running on the previous owner after the prologue — the claimed synchronous
release (disconnecting observers, clearing timers) does not happen. -/
theorem previous_owner_resources_refuted :
    ∃ w ∈ highlightPrologue [⟨0, true, true, true⟩] 1,
      w.wid = 0 ∧ w.intervalActive = true ∧ w.observerActive = true := by
  decide

/-- Claim C8 as amended: starting positioning for a new target
synchronously removes the previous highlight wrapper node from the
document before the new wrapper is created, so (given the invariant that
at most one wrapper is attached) exactly the new wrapper is in the
document afterwards and every run writes only to its own wrapper node;
but the previous run's observers and repeating timers are not
disconnected or cleared by this prologue — every prior wrapper keeps its
timer and observer state (only `cleanupAllUI` releases them). -/
theorem single_wrapper_after_prologue (ws : List OverlayWrapper) (n : Nat)
    (h1 : ws.countP (fun w => w.inDoc) ≤ 1) :
    (∀ w ∈ removeExistingWrapper ws, w.inDoc = false) ∧
    (highlightPrologue ws n).countP (fun w => w.inDoc) = 1 ∧
    (removeExistingWrapper ws).map (fun w => (w.wid, w.intervalActive, w.observerActive)) =
      ws.map (fun w => (w.wid, w.intervalActive, w.observerActive)) := by
  have hall := removeExistingWrapper_all_detached ws h1
  refine ⟨hall, ?_, removeExistingWrapper_keeps_resources ws⟩
  have hz : (removeExistingWrapper ws).countP (fun w => w.inDoc) = 0 :=
    List.countP_eq_zero.mpr (by intro a ha; simp [hall a ha])
  simp [highlightPrologue, List.countP_append, hz, newWrapper, List.countP_cons]

/-- Witness for the amended C8: one attached wrapper with live timer and
observer; after the prologue only the new wrapper is attached and the old
one keeps its resources. -/
theorem single_wrapper_after_prologue_witness :
    (∀ w ∈ removeExistingWrapper [(⟨0, true, true, true⟩ : OverlayWrapper)], w.inDoc = false) ∧
    (highlightPrologue [⟨0, true, true, true⟩] 1).countP (fun w => w.inDoc) = 1 ∧
    (removeExistingWrapper [(⟨0, true, true, true⟩ : OverlayWrapper)]).map
        (fun w => (w.wid, w.intervalActive, w.observerActive)) =
      [(⟨0, true, true, true⟩ : OverlayWrapper)].map
        (fun w => (w.wid, w.intervalActive, w.observerActive)) :=
  single_wrapper_after_prologue [⟨0, true, true, true⟩] 1 (by decide)
